import Mathlib

/-!
Verification development for the SLSC needs-severity toolset.

This file shallowly embeds the algorithmic core of the repository:

* `scripts/update_dataset_health_metadata.py` — the Alignment & Health
  Calculator (`is_computed_dataset`, `calculate_health_metrics`,
  `determine_cleaning_status`).  Database reads (boundary pcode sets,
  dataset value rows, instance-usage counts) are passed as explicit
  arguments; Python floats are modelled as exact rationals.
* `scripts/reimport_all_boundaries.py` — the Geometry Normalizer
  (`process_single_file_level`, `process_level_from_admin_level_column`)
  and the Hierarchy Validator (`validate_parent_child_relationships`).
* `scripts/add_madagascar_country.py` — the name-column fallback of the
  Madagascar importer (`import_boundaries`, lines 266–292).
-/

namespace SLSC

/-! ### Python-semantics helpers -/

/-- Substring test on character lists: does `pat` occur inside the list? -/
def charsContain (pat : List Char) : List Char → Bool
  | [] => pat.isEmpty
  | c :: rest => pat.isPrefixOf (c :: rest) || charsContain pat rest

/-- Python substring membership, `pat in s`. -/
def strContains (s pat : String) : Bool :=
  charsContain pat.data s.data

/-- Python `str.lower()` (ASCII case folding, character by character). -/
def pyLower (s : String) : String :=
  ⟨s.data.map Char.toLower⟩

/-- Truthiness of an optional string in Python: `None` and `""` are falsy. -/
def pyStrTruthy : Option String → Bool
  | none => false
  | some s => decide (s ≠ "")

/-- Python `a or b` on optional strings. -/
def pyOrStr (a b : Option String) : Option String :=
  if pyStrTruthy a then a else b

/-! ### Data model

`Dataset` carries exactly the fields the health calculator reads: the
dataset name and the metadata entries `source`, `is_computed`, `computed`,
`readiness`, `cleaning_status`, plus `admin_level`.  Boolean metadata
flags model the truthiness of the corresponding JSON values. -/

structure Dataset where
  name : Option String
  metadata_source : Option String
  metadata_is_computed : Bool
  metadata_computed : Bool
  metadata_readiness : Option String
  metadata_cleaning_status : Option String
  admin_level : Option String
deriving DecidableEq

/-- The expression `metadata.get("readiness") or metadata.get("cleaning_status")`
(update_dataset_health_metadata.py line 119). -/
def dataset_readiness (d : Dataset) : Option String :=
  pyOrStr d.metadata_readiness d.metadata_cleaning_status

/-- update_dataset_health_metadata.py lines 58–74: a dataset is
"computed" when its lowercased name contains both "hazard" and "score",
or its metadata declares `source = "hazard_event_analysis"`, or either of
the `is_computed` / `computed` metadata flags is truthy. -/
def is_computed_dataset (d : Dataset) : Bool :=
  let nm := pyLower (d.name.getD "")
  if strContains nm "hazard" && strContains nm "score" then true
  else if d.metadata_source = some "hazard_event_analysis" then true
  else if d.metadata_is_computed || d.metadata_computed then true
  else false

/-- One row of `dataset_values_numeric`: a pcode and a nullable value. -/
structure NumRow where
  admin_pcode : String
  value : Option ℚ
deriving DecidableEq

/-- One row of `dataset_values_categorical`: a pcode and a category. -/
structure CatRow where
  admin_pcode : String
  category : String
deriving DecidableEq

/-- The value rows fetched for a dataset; the shape follows the dataset
type (`numeric` / `categorical`). -/
inductive Rows where
  | num (rows : List NumRow)
  | cat (rows : List CatRow)
deriving DecidableEq

/-- Python `if not values` on the fetched row list. -/
def rowsEmpty : Rows → Bool
  | Rows.num l => l.isEmpty
  | Rows.cat l => l.isEmpty

/-- The `data_health` record built by `calculate_health_metrics`.
`matched`/`total` are `none` for computed datasets (Python `None`);
`is_computed` and `note` default to absent dictionary keys. -/
structure HealthMetrics where
  matched : Option Nat
  total : Option Nat
  percent : ℚ
  alignment_rate : ℚ
  coverage : ℚ
  completeness : ℚ
  uniqueness : ℚ
  validation_errors : Nat
  is_computed : Bool := false
  note : Option String := none
deriving DecidableEq

/-! ### Alignment sets (update_dataset_health_metadata.py lines 162–164
and 192–194): `matched = value_pcodes & boundaries`,
`orphaned = value_pcodes - boundaries`, `missing = boundaries - value_pcodes`. -/

def matchedSet (valuePcodes boundaries : Finset String) : Finset String :=
  valuePcodes ∩ boundaries

def orphanedSet (valuePcodes boundaries : Finset String) : Finset String :=
  valuePcodes \ boundaries

def missingSet (valuePcodes boundaries : Finset String) : Finset String :=
  boundaries \ valuePcodes

/-- Deduplicated set of pcodes appearing in numeric value rows. -/
def numValuePcodes (vs : List NumRow) : Finset String :=
  (vs.map (fun v => v.admin_pcode)).toFinset

/-- Rows whose `value` is null (line 152). -/
def numNullCount (vs : List NumRow) : Nat :=
  vs.countP (fun v => decide (v.value = none))

/-- Rows whose `value` equals zero (line 153); `None == 0` is false in
Python, so this is disjoint from `numNullCount`. -/
def numZeroCount (vs : List NumRow) : Nat :=
  vs.countP (fun v => decide (v.value = some 0))

/-- Number of pcodes occurring on more than one numeric row
(lines 156–159). -/
def numDuplicates (vs : List NumRow) : Nat :=
  ((numValuePcodes vs).filter
    (fun p => 1 < vs.countP (fun v => decide (v.admin_pcode = p)))).card

/-- Deduplicated set of pcodes appearing in categorical value rows. -/
def catValuePcodes (vs : List CatRow) : Finset String :=
  (vs.map (fun v => v.admin_pcode)).toFinset

/-- Deduplicated set of (pcode, category) pairs. -/
def catPairs (vs : List CatRow) : Finset (String × String) :=
  (vs.map (fun v => (v.admin_pcode, v.category))).toFinset

/-- Number of (pcode, category) pairs occurring on more than one row
(lines 185–189). -/
def catDuplicates (vs : List CatRow) : Nat :=
  ((catPairs vs).filter
    (fun pc => 1 < vs.countP
      (fun v => decide (v.admin_pcode = pc.1) && decide (v.category = pc.2)))).card

/-- Record returned for computed datasets (lines 85–95). -/
def computedHealth : HealthMetrics :=
  { matched := none, total := none, percent := 1, alignment_rate := 1,
    coverage := 1, completeness := 1, uniqueness := 1, validation_errors := 0,
    is_computed := true }

/-- Record returned when no boundaries exist at the level (lines 103–112). -/
def emptyBoundariesHealth : HealthMetrics :=
  { matched := some 0, total := some 0, percent := 0, alignment_rate := 0,
    coverage := 0, completeness := 0, uniqueness := 1, validation_errors := 0 }

/-- Record returned for a valueless dataset marked "ready" (lines 124–134). -/
def markedReadyHealth (n : Nat) : HealthMetrics :=
  { matched := some n, total := some n, percent := 1, alignment_rate := 1,
    coverage := 1, completeness := 1, uniqueness := 1, validation_errors := 0,
    note := some "marked_as_ready" }

/-- Record returned for a valueless dataset not marked ready (lines 136–145). -/
def noValuesHealth (n : Nat) : HealthMetrics :=
  { matched := some 0, total := some n, percent := 0, alignment_rate := 0,
    coverage := 0, completeness := 0, uniqueness := 1, validation_errors := 0 }

/-- Numeric branch, lines 148–180.  Rational division by zero is `0` in
Lean, which coincides with the Python guards `... if boundaries else 0`
and `... if values else 0`; for uniqueness, `1 - d/0 = 1` matches
`1.0 ... if values else 1.0`. -/
def numericHealth (boundaries : Finset String) (vs : List NumRow) : HealthMetrics :=
  let valuePcodes := numValuePcodes vs
  let matched := matchedSet valuePcodes boundaries
  let orphaned := orphanedSet valuePcodes boundaries
  let duplicates := numDuplicates vs
  let alignment_rate : ℚ := (matched.card : ℚ) / (boundaries.card : ℚ)
  { matched := some matched.card,
    total := some boundaries.card,
    percent := alignment_rate,
    alignment_rate := alignment_rate,
    coverage := alignment_rate,
    completeness :=
      ((vs.length - numNullCount vs - numZeroCount vs : Nat) : ℚ) / (vs.length : ℚ),
    uniqueness := 1 - (duplicates : ℚ) / (vs.length : ℚ),
    validation_errors := orphaned.card + duplicates }

/-- Categorical branch, lines 181–210.  Note completeness is
`len(value_pcodes) / len(boundaries)` (line 198). -/
def categoricalHealth (boundaries : Finset String) (vs : List CatRow) : HealthMetrics :=
  let valuePcodes := catValuePcodes vs
  let matched := matchedSet valuePcodes boundaries
  let orphaned := orphanedSet valuePcodes boundaries
  let duplicates := catDuplicates vs
  let alignment_rate : ℚ := (matched.card : ℚ) / (boundaries.card : ℚ)
  { matched := some matched.card,
    total := some boundaries.card,
    percent := alignment_rate,
    alignment_rate := alignment_rate,
    coverage := alignment_rate,
    completeness := (valuePcodes.card : ℚ) / (boundaries.card : ℚ),
    uniqueness := 1 - (duplicates : ℚ) / (vs.length : ℚ),
    validation_errors := orphaned.card + duplicates }

/-- update_dataset_health_metadata.py lines 76–210.  `boundaries` is the
pcode set fetched by `get_all_boundaries`, `values` the row list fetched
by `get_all_dataset_values`; `None` (no admin level) becomes `none`. -/
def calculate_health_metrics (dataset : Dataset) (boundaries : Finset String)
    (values : Rows) : Option HealthMetrics :=
  if is_computed_dataset dataset then some computedHealth
  else if !pyStrTruthy dataset.admin_level then none
  else if boundaries = ∅ then some emptyBoundariesHealth
  else if rowsEmpty values then
    if dataset_readiness dataset = some "ready" then
      some (markedReadyHealth boundaries.card)
    else some (noValuesHealth boundaries.card)
  else
    match values with
    | Rows.num vs => some (numericHealth boundaries vs)
    | Rows.cat vs => some (categoricalHealth boundaries vs)

/-- update_dataset_health_metadata.py lines 212–243.  `usage_count` is
the `instance_datasets` count the function queries when both alignment
and completeness are zero; the Python inner `if` falls through to the
threshold checks when the count is zero, which the flattened condition
below reproduces exactly. -/
def determine_cleaning_status (health : Option HealthMetrics)
    (usage_count : Nat) : String :=
  match health with
  | none => "needs_review"
  | some h =>
    if h.is_computed then "ready"
    else if h.alignment_rate = 0 ∧ h.completeness = 0 ∧ 0 < usage_count then
      "ready"
    else if 95/100 ≤ h.alignment_rate ∧ 95/100 ≤ h.completeness ∧
        h.validation_errors = 0 then "ready"
    else if 85/100 ≤ h.alignment_rate ∧ 85/100 ≤ h.completeness then
      "in_progress"
    else "needs_review"

/-- The classification rule exactly as the specification states it
(spec §4.5, claim C1): computed ⇒ ready; high metrics and no errors ⇒
ready; decent metrics ⇒ in_progress; else needs_review.  Written from
the spec's words for comparison against `determine_cleaning_status`. -/
def spec_cleaning_status (is_comp : Bool) (alignment completeness : ℚ)
    (validation_error_count : Nat) : String :=
  if is_comp then "ready"
  else if 95/100 ≤ alignment ∧ 95/100 ≤ completeness ∧
      validation_error_count = 0 then "ready"
  else if 85/100 ≤ alignment ∧ 85/100 ≤ completeness then "in_progress"
  else "needs_review"

/-- The amended classification rule: as the spec's rule, except that a
non-computed record with zero alignment, zero completeness and at least
one `instance_datasets` usage row is classified ready, and absent
metrics classify as needs_review. -/
def amended_cleaning_status (health : Option HealthMetrics)
    (usage_count : Nat) : String :=
  match health with
  | none => "needs_review"
  | some h =>
    if !h.is_computed ∧ h.alignment_rate = 0 ∧ h.completeness = 0 ∧
        0 < usage_count then "ready"
    else spec_cleaning_status h.is_computed h.alignment_rate h.completeness
      h.validation_errors

/-! ### Geometry Normalizer (reimport_all_boundaries.py) -/

/-- The geometry types the pipeline distinguishes (shapely `geom_type`). -/
inductive GeomType where
  | polygon
  | multiPolygon
  | point
  | line
  | geometryCollection
deriving DecidableEq

/-- A geometry as the pipeline observes it: its type and the outcome of
shapely's `is_valid` check (an external predicate, modelled as a field). -/
structure Geometry where
  geom_type : GeomType
  valid : Bool
deriving DecidableEq

/-- A standardized boundary record as built at reimport_all_boundaries.py
lines 333–354: pcode already stringified, optional name and parent. -/
structure GeoRecord where
  admin_pcode : String
  name : Option String
  parent_pcode : Option String
  geometry : Option Geometry
deriving DecidableEq

/-- Lines 357–359: keep rows whose stringified pcode is neither the
literal `"None"` nor empty (`astype(str)` leaves no NaN, so `notna()`
never drops a row). -/
def pcodeKept (r : GeoRecord) : Bool :=
  decide (r.admin_pcode ≠ "None") && decide (r.admin_pcode ≠ "")

/-- Lines 362–364 / 459–463: geometry present and of Polygon or
MultiPolygon type. -/
def isPolygonal (r : GeoRecord) : Bool :=
  match r.geometry with
  | none => false
  | some g => decide (g.geom_type = GeomType.polygon) ||
      decide (g.geom_type = GeomType.multiPolygon)

/-- Line 366 / 471: shapely `is_valid` (false for an absent geometry). -/
def geomValid (r : GeoRecord) : Bool :=
  match r.geometry with
  | none => false
  | some g => g.valid

/-- pandas `drop_duplicates(subset=["admin_pcode"])`: keep the first row
for each pcode, preserving order.  `seen` accumulates pcodes already kept. -/
def dropDupAux (seen : List String) : List GeoRecord → List GeoRecord
  | [] => []
  | r :: rest =>
    if r.admin_pcode ∈ seen then dropDupAux seen rest
    else r :: dropDupAux (r.admin_pcode :: seen) rest

/-- Deduplicate by pcode keeping the first occurrence (line 367 / 468). -/
def dropDuplicatesByPcode (l : List GeoRecord) : List GeoRecord :=
  dropDupAux [] l

/-- The cleaning pipeline of `process_single_file_level`
(lines 357–367): drop bad pcodes, drop non-polygonal geometries, drop
invalid geometries, deduplicate by pcode. -/
def normalize_single_level (l : List GeoRecord) : List GeoRecord :=
  dropDuplicatesByPcode (((l.filter pcodeKept).filter isPolygonal).filter geomValid)

/-- The cleaning pipeline of `process_level_from_admin_level_column`
(lines 451–471): same filters, but deduplication happens before the
validity filter. -/
def normalize_admin_level (l : List GeoRecord) : List GeoRecord :=
  (dropDuplicatesByPcode ((l.filter pcodeKept).filter isPolygonal)).filter geomValid

/-- A raw source row as `process_single_file_level` reads it: the
stringified values under the resolved pcode / name / parent columns plus
the geometry. -/
structure SrcRow where
  pcode_value : String
  name_value : String
  parent_value : String
  geometry : Option Geometry
deriving DecidableEq

/-- Record construction, reimport_all_boundaries.py lines 333–352: when
no name column resolved the `name` field is `None` for every row (there
is no fallback to the pcode); likewise for the parent column. -/
def single_file_record (hasNameCol hasParentCol : Bool) (r : SrcRow) : GeoRecord :=
  { admin_pcode := r.pcode_value,
    name := if hasNameCol then some r.name_value else none,
    parent_pcode := if hasParentCol then some r.parent_value else none,
    geometry := r.geometry }

/-- The function `process_single_file_level` (lines 290–372), after column
resolution: an unresolved pcode column is fatal (returns `None`,
lines 328–330); otherwise records are standardized and cleaned, and an
empty result returns `None` (lines 369–370). -/
def process_single_file_level (hasPcodeCol hasNameCol hasParentCol : Bool)
    (rows : List SrcRow) : Option (List GeoRecord) :=
  if !hasPcodeCol then none
  else
    let out := normalize_single_level
      (rows.map (single_file_record hasNameCol hasParentCol))
    if out.isEmpty then none else some out

/-- add_madagascar_country.py lines 288–292: the standardized
`(admin_pcode, name)` pair of one row.  The pcode is stripped; when no
name column resolved, the name falls back to the (stripped) pcode. -/
def mdg_standardize (hasNameCol : Bool) (pcode_value name_value : String) :
    String × String :=
  let admin_pcode := pcode_value.trim
  (admin_pcode, if hasNameCol then name_value.trim else admin_pcode)

/-- Erase the name of a standardized record (all other fields kept). -/
def eraseName (r : GeoRecord) : GeoRecord :=
  { r with name := none }

/-! ### Hierarchy Validator (reimport_all_boundaries.py lines 547–610) -/

/-- A normalized boundary row as the validator reads it. -/
structure BoundaryRow where
  admin_pcode : String
  parent_pcode : Option String
deriving DecidableEq

/-- The per-level statistics dictionary built by the validator. -/
structure LevelStats where
  total : Nat
  with_parent : Nat
  orphans : Nat
  valid_parents : Nat
deriving DecidableEq

/-- Python `boundaries_by_level.get(parent_level)`: lookup of a level's record
list in the per-level dictionary, modelled as an association list. -/
def lookupLevel (bl : List (Nat × List BoundaryRow)) (n : Nat) :
    Option (List BoundaryRow) :=
  (bl.find? (fun e => decide (e.1 = n))).map (fun e => e.2)

/-- Lines 591–596: the reported invalid parent links, in row order, as
`"child -> parent"` strings. -/
def invalidParentLinks (parent_pcodes : Finset String)
    (withParent : List BoundaryRow) : List String :=
  (withParent.filter
      (fun r => decide (r.parent_pcode.getD "" ∉ parent_pcodes))).map
    (fun r => r.admin_pcode ++ " -> " ++ r.parent_pcode.getD "")

/-- Statistics and issues for one level (loop body, lines 555–608).
Level 0 is exempt from parent checks; a missing parent level reports the
whole level as orphans plus one issue; otherwise rows are split by
presence of a parent reference and checked against the parent pcodes. -/
def validate_level (bl : List (Nat × List BoundaryRow)) (level_num : Nat)
    (gdf : List BoundaryRow) : LevelStats × List String :=
  if level_num = 0 then
    ({ total := gdf.length, with_parent := 0, orphans := 0, valid_parents := 0 }, [])
  else
    match lookupLevel bl (level_num - 1) with
    | none =>
      ({ total := gdf.length, with_parent := 0, orphans := gdf.length,
         valid_parents := 0 },
       ["ADM" ++ toString level_num ++ ": No parent level ADM" ++
         toString (level_num - 1) ++ " found"])
    | some parent_gdf =>
      let parent_pcodes := (parent_gdf.map (fun r => r.admin_pcode)).toFinset
      let withParent := gdf.filter (fun r => r.parent_pcode.isSome)
      let orphans := gdf.filter (fun r => !r.parent_pcode.isSome)
      let valid_parents := (withParent.filter
        (fun r => decide (r.parent_pcode.getD "" ∈ parent_pcodes))).length
      let invalid := invalidParentLinks parent_pcodes withParent
      let issues :=
        if invalid.length = 0 then []
        else ("ADM" ++ toString level_num ++ ": " ++ toString invalid.length ++
            " invalid parent references") ::
          (if invalid.length ≤ 10 then invalid.map (fun s => "  - " ++ s) else [])
      ({ total := gdf.length, with_parent := withParent.length,
         orphans := orphans.length, valid_parents := valid_parents }, issues)

/-- The function `validate_parent_child_relationships` (lines 547–610): per-level
statistics for every level in the input, plus the concatenated issues.
The Python iterates the dictionary keys in sorted order; the order only
affects issue ordering, never the per-level statistics. -/
def validate_parent_child_relationships (bl : List (Nat × List BoundaryRow)) :
    List (Nat × LevelStats) × List String :=
  (bl.map (fun e => (e.1, (validate_level bl e.1 e.2).1)),
   (bl.map (fun e => (validate_level bl e.1 e.2).2)).flatten)

/-! ### Concrete inputs used by scenario claims -/

/-- A plain numeric dataset: no computed flags, admin level set. -/
def plainDataset : Dataset :=
  { name := some "Population", metadata_source := none,
    metadata_is_computed := false, metadata_computed := false,
    metadata_readiness := none, metadata_cleaning_status := none,
    admin_level := some "ADM1" }

/-- Boundary set of the §8 scenario: three units A, B, C. -/
def scenarioBoundaries : Finset String := {"A", "B", "C"}

/-- Value rows of the §8 scenario: A:10, B:0, C:null, D:5. -/
def scenarioRows : List NumRow :=
  [⟨"A", some 10⟩, ⟨"B", some 0⟩, ⟨"C", none⟩, ⟨"D", some 5⟩]

/-- The health record the code produces on the §8 scenario. -/
def scenarioHealth : HealthMetrics :=
  { matched := some 3, total := some 3, percent := 1, alignment_rate := 1,
    coverage := 1, completeness := 1/2, uniqueness := 1, validation_errors := 1 }

/-- Evaluation of the calculator on the §8 scenario. -/
theorem scenario_eval :
    calculate_health_metrics plainDataset scenarioBoundaries (Rows.num scenarioRows)
      = some scenarioHealth := by
  have step : calculate_health_metrics plainDataset scenarioBoundaries
      (Rows.num scenarioRows) = some (numericHealth scenarioBoundaries scenarioRows) := by
    have c1 : is_computed_dataset plainDataset = false := by decide
    have c2 : pyStrTruthy plainDataset.admin_level = true := by decide
    have c3 : (scenarioBoundaries = ∅) = False := by simp +decide
    have c4 : rowsEmpty (Rows.num scenarioRows) = false := by decide
    simp [calculate_health_metrics, c1, c2, c3, c4]
  rw [step]
  have hm : (matchedSet (numValuePcodes scenarioRows) scenarioBoundaries).card = 3 := by
    decide
  have ho : (orphanedSet (numValuePcodes scenarioRows) scenarioBoundaries).card = 1 := by
    decide
  have hd : numDuplicates scenarioRows = 0 := by decide
  have hn : numNullCount scenarioRows = 1 := by decide
  have hz : numZeroCount scenarioRows = 1 := by decide
  have hb : scenarioBoundaries.card = 3 := by decide
  have hl : scenarioRows.length = 4 := by decide
  simp [numericHealth, hm, ho, hd, hn, hz, hb, hl, scenarioHealth]
  norm_num

/-- C6: for every boundary code set `B` and value code set `V` processed
by the Alignment & Health Calculator, `|matched| + |missing| = |B|` and
`|matched| + |orphaned| = |V|` — the sets partition `B` and `V`. -/
theorem alignment_sets_partition (B V : Finset String) :
    (matchedSet V B).card + (missingSet V B).card = B.card ∧
    (matchedSet V B).card + (orphanedSet V B).card = V.card := by
  constructor
  · have h := Finset.card_inter_add_card_sdiff B V
    rw [Finset.inter_comm] at h
    simp [matchedSet, missingSet, h]
  · have h := Finset.card_inter_add_card_sdiff V B
    simp [matchedSet, orphanedSet, h]

/-- C3 counterexample: on the §8 scenario (boundaries {A,B,C}, values
A:10, B:0, C:null, D:5) the code's completeness is 1/2 — two of the four
value rows (A and D) are non-null and non-zero — not the claimed 1/3. -/
theorem scenario_completeness_not_one_third :
    (calculate_health_metrics plainDataset scenarioBoundaries
        (Rows.num scenarioRows)).map (fun h => h.completeness) = some (1/2) ∧
    (1/2 : ℚ) ≠ 1/3 := by
  refine ⟨?_, by norm_num⟩
  rw [scenario_eval]
  rfl

/-- C3 amended: on the §8 scenario the calculator returns matched = 3,
orphaned = 1, missing = 0, alignment_rate = 1, completeness = 1/2 (not
1/3: row D is also non-null/non-zero and the denominator is all four
rows), uniqueness = 1 and one validation error, and the classification
is needs_review whatever the instance-usage count. -/
theorem scenario_amended :
    calculate_health_metrics plainDataset scenarioBoundaries (Rows.num scenarioRows)
      = some scenarioHealth ∧
    (matchedSet (numValuePcodes scenarioRows) scenarioBoundaries).card = 3 ∧
    (orphanedSet (numValuePcodes scenarioRows) scenarioBoundaries).card = 1 ∧
    (missingSet (numValuePcodes scenarioRows) scenarioBoundaries).card = 0 ∧
    scenarioHealth.alignment_rate = 1 ∧
    scenarioHealth.completeness = 1/2 ∧
    (∀ usage_count : Nat,
      determine_cleaning_status (some scenarioHealth) usage_count = "needs_review") := by
  refine ⟨scenario_eval, by decide, by decide, by decide, rfl, rfl, ?_⟩
  intro usage_count
  have h1 : (scenarioHealth.alignment_rate = 0 ∧ scenarioHealth.completeness = 0 ∧
      0 < usage_count) = False := by
    simp [scenarioHealth]
  simp [determine_cleaning_status, scenarioHealth, h1]
  norm_num

/-- C4 counterexample: with zero boundaries (and hence zero values) the
code returns uniqueness = 1.0, not 0 as the claim states for all four
ratios. -/
theorem empty_level_uniqueness_not_zero :
    (calculate_health_metrics plainDataset ∅ (Rows.num [])).map
        (fun h => h.uniqueness) = some 1 ∧
    (1 : ℚ) ≠ 0 := by
  constructor
  · have c1 : is_computed_dataset plainDataset = false := by decide
    have c2 : pyStrTruthy plainDataset.admin_level = true := by decide
    simp [calculate_health_metrics, c1, c2, emptyBoundariesHealth]
  · norm_num

/-- C4 amended: for every non-computed dataset with an admin level,
zero boundaries at that level yield a defined health record with
alignment_rate = coverage = completeness = 0 but uniqueness = 1.0, and
the classification is needs_review provided the dataset has no
instance-usage rows (with usage it would be ready). -/
theorem empty_level_metrics (d : Dataset) (values : Rows)
    (hcomp : is_computed_dataset d = false)
    (hlvl : pyStrTruthy d.admin_level = true) :
    calculate_health_metrics d ∅ values = some emptyBoundariesHealth ∧
    emptyBoundariesHealth.alignment_rate = 0 ∧
    emptyBoundariesHealth.coverage = 0 ∧
    emptyBoundariesHealth.completeness = 0 ∧
    emptyBoundariesHealth.uniqueness = 1 ∧
    determine_cleaning_status (some emptyBoundariesHealth) 0 = "needs_review" := by
  refine ⟨?_, rfl, rfl, rfl, rfl, ?_⟩
  · simp [calculate_health_metrics, hcomp, hlvl]
  · simp [determine_cleaning_status, emptyBoundariesHealth]
    norm_num

/-- C4 witness: the amended statement at the plain dataset with an empty
numeric value list. -/
theorem empty_level_metrics_witness :
    calculate_health_metrics plainDataset ∅ (Rows.num []) = some emptyBoundariesHealth ∧
    determine_cleaning_status (some emptyBoundariesHealth) 0 = "needs_review" := by
  have h := empty_level_metrics plainDataset (Rows.num []) (by decide) (by decide)
  exact ⟨h.1, h.2.2.2.2.2⟩

/-- A dataset with no computed flags, an admin level, and metadata
`cleaning_status = "ready"`. -/
def readyDataset : Dataset :=
  { name := some "Poverty", metadata_source := none,
    metadata_is_computed := false, metadata_computed := false,
    metadata_readiness := none, metadata_cleaning_status := some "ready",
    admin_level := some "ADM1" }

/-- A dataset whose metadata flags it as computed. -/
def computedDataset : Dataset :=
  { name := some "Hazard Exposure Score", metadata_source := none,
    metadata_is_computed := true, metadata_computed := false,
    metadata_readiness := none, metadata_cleaning_status := none,
    admin_level := some "ADM2" }

/-- C5 counterexample: a non-computed dataset marked ready, with no
stored values but also no boundaries at its level, is scored all-zero
(completeness 0), not fully healthy — the empty-boundaries branch runs
before the readiness check. -/
theorem marked_ready_no_boundaries_scored_zero :
    (calculate_health_metrics readyDataset ∅ (Rows.num [])).map
        (fun h => h.completeness) = some 0 ∧
    (0 : ℚ) ≠ 1 := by
  constructor
  · have c1 : is_computed_dataset readyDataset = false := by decide
    have c2 : pyStrTruthy readyDataset.admin_level = true := by decide
    simp [calculate_health_metrics, c1, c2, emptyBoundariesHealth]
  · norm_num

/-- C5 amended: a dataset flagged computed is always scored fully
healthy (all four metrics 1.0, zero validation errors); a non-computed
dataset with no stored values but marked ready is scored fully healthy
provided its admin level is set and at least one boundary exists at that
level (with no boundaries it is scored zero instead). -/
theorem computed_or_ready_scored_healthy :
    (∀ (d : Dataset) (B : Finset String) (values : Rows),
      is_computed_dataset d = true →
      calculate_health_metrics d B values = some computedHealth) ∧
    (∀ (d : Dataset) (B : Finset String) (values : Rows),
      is_computed_dataset d = false →
      pyStrTruthy d.admin_level = true →
      B ≠ ∅ →
      rowsEmpty values = true →
      dataset_readiness d = some "ready" →
      calculate_health_metrics d B values = some (markedReadyHealth B.card)) ∧
    computedHealth.alignment_rate = 1 ∧ computedHealth.coverage = 1 ∧
    computedHealth.completeness = 1 ∧ computedHealth.uniqueness = 1 ∧
    computedHealth.validation_errors = 0 ∧
    (∀ n : Nat, (markedReadyHealth n).alignment_rate = 1 ∧
      (markedReadyHealth n).coverage = 1 ∧ (markedReadyHealth n).completeness = 1 ∧
      (markedReadyHealth n).uniqueness = 1 ∧
      (markedReadyHealth n).validation_errors = 0) := by
  refine ⟨?_, ?_, rfl, rfl, rfl, rfl, rfl, fun n => ⟨rfl, rfl, rfl, rfl, rfl⟩⟩
  · intro d B values hcomp
    simp [calculate_health_metrics, hcomp]
  · intro d B values hcomp hlvl hB hempty hready
    simp [calculate_health_metrics, hcomp, hlvl, hB, hempty, hready]

/-- C5 witness: the amended statement applied to the computed dataset
and to the ready-but-valueless dataset over the boundary set {A}. -/
theorem computed_or_ready_scored_healthy_witness :
    calculate_health_metrics computedDataset {"A"} (Rows.num [])
      = some computedHealth ∧
    calculate_health_metrics readyDataset {"A"} (Rows.num [])
      = some (markedReadyHealth ({"A"} : Finset String).card) := by
  exact ⟨computed_or_ready_scored_healthy.1 computedDataset {"A"} (Rows.num [])
      (by decide),
    computed_or_ready_scored_healthy.2.1 readyDataset {"A"} (Rows.num [])
      (by decide) (by decide) (by simp +decide) (by decide) (by decide)⟩

/-- In every numeric row list, null rows, zero rows and usable rows
partition the rows: the two counted categories are disjoint because
`None == 0` is false in Python. -/
theorem null_zero_usable_partition (l : List NumRow) :
    numNullCount l + numZeroCount l +
      l.countP (fun v => !decide (v.value = none) && !decide (v.value = some 0))
      = l.length := by
  induction l with
  | nil => rfl
  | cons v rest ih =>
    rcases hv : v.value with _ | q
    · simp [numNullCount, numZeroCount, List.countP_cons, hv] at ih ⊢
      omega
    · by_cases hq : q = 0
      · simp [numNullCount, numZeroCount, List.countP_cons, hv, hq] at ih ⊢
        omega
      · simp [numNullCount, numZeroCount, List.countP_cons, hv, hq] at ih ⊢
        omega

/-- C2 counterexample: boundaries {A}, one categorical row with orphaned
pcode D.  The code's completeness is |V|/|B| = 1, while the claimed
|B ∩ V|/|B| is 0. -/
theorem categorical_completeness_counts_orphans :
    (calculate_health_metrics plainDataset {"A"} (Rows.cat [⟨"D", "x"⟩])).map
        (fun h => h.completeness) = some 1 ∧
    ((matchedSet (catValuePcodes [⟨"D", "x"⟩]) {"A"}).card : ℚ)
        / (({"A"} : Finset String).card : ℚ) = 0 ∧
    (1 : ℚ) ≠ 0 := by
  refine ⟨?_, ?_, by norm_num⟩
  · have c1 : is_computed_dataset plainDataset = false := by decide
    have c2 : pyStrTruthy plainDataset.admin_level = true := by decide
    have c3 : (({"A"} : Finset String) = ∅) = False := by simp +decide
    have c4 : rowsEmpty (Rows.cat [⟨"D", "x"⟩]) = false := by decide
    have hv : (catValuePcodes [⟨"D", "x"⟩]).card = 1 := by decide
    have hb : ({"A"} : Finset String).card = 1 := by decide
    simp [calculate_health_metrics, c1, c2, c3, c4, categoricalHealth, hv, hb]
  · have hm : (matchedSet (catValuePcodes [⟨"D", "x"⟩]) {"A"}).card = 0 := by decide
    rw [hm]
    norm_num

/-- C2 amended: for a non-computed dataset with an admin level and a
nonempty boundary set, numeric completeness is the fraction of value
rows that are neither null nor exactly zero (as claimed), while
categorical completeness is |V|/|B| with V the deduplicated value code
set — orphaned codes count too, so it is not |B ∩ V|/|B|. -/
theorem completeness_formulas (d : Dataset) (B : Finset String)
    (nvs : List NumRow) (cvs : List CatRow)
    (hcomp : is_computed_dataset d = false)
    (hlvl : pyStrTruthy d.admin_level = true)
    (hB : B ≠ ∅) :
    (nvs ≠ [] →
      (calculate_health_metrics d B (Rows.num nvs)).map (fun h => h.completeness)
        = some ((nvs.countP
            (fun v => !decide (v.value = none) && !decide (v.value = some 0)) : ℚ)
          / (nvs.length : ℚ))) ∧
    (cvs ≠ [] →
      (calculate_health_metrics d B (Rows.cat cvs)).map (fun h => h.completeness)
        = some (((catValuePcodes cvs).card : ℚ) / (B.card : ℚ))) := by
  constructor
  · intro hne
    have hempty : rowsEmpty (Rows.num nvs) = false := by
      simp [rowsEmpty, List.isEmpty_iff, hne]
    have hcount : nvs.length - numNullCount nvs - numZeroCount nvs
        = nvs.countP (fun v => !decide (v.value = none) && !decide (v.value = some 0)) := by
      have h := null_zero_usable_partition nvs
      omega
    simp [calculate_health_metrics, hcomp, hlvl, hB, hempty, numericHealth, hcount]
  · intro hne
    have hempty : rowsEmpty (Rows.cat cvs) = false := by
      simp [rowsEmpty, List.isEmpty_iff, hne]
    simp [calculate_health_metrics, hcomp, hlvl, hB, hempty, categoricalHealth]

/-- C2 witness: the amended formulas on boundaries {A} with the numeric
rows [A:10, B:null] and the categorical row [(D,x)]. -/
theorem completeness_formulas_witness :
    ((calculate_health_metrics plainDataset {"A"}
        (Rows.num [⟨"A", some 10⟩, ⟨"B", none⟩])).map (fun h => h.completeness)
      = some ((([⟨"A", some 10⟩, ⟨"B", none⟩] : List NumRow).countP
          (fun v => !decide (v.value = none) && !decide (v.value = some 0)) : ℚ)
        / (([⟨"A", some 10⟩, ⟨"B", none⟩] : List NumRow).length : ℚ))) ∧
    ((calculate_health_metrics plainDataset {"A"} (Rows.cat [⟨"D", "x"⟩])).map
        (fun h => h.completeness)
      = some (((catValuePcodes [⟨"D", "x"⟩]).card : ℚ)
        / ((({"A"} : Finset String)).card : ℚ))) := by
  have h := completeness_formulas plainDataset {"A"}
    [⟨"A", some 10⟩, ⟨"B", none⟩] [⟨"D", "x"⟩]
    (by decide) (by decide) (by simp +decide)
  exact ⟨h.1 (by simp), h.2 (by simp)⟩

/-- C1 counterexample: on the all-zero, non-computed health record
(alignment 0, completeness 0, zero validation errors), the claimed
ordered rule yields needs_review, but the code yields ready whenever the
dataset has at least one `instance_datasets` usage row — the
classification is not the stated rule, nor a function of the health
metrics alone. -/
theorem cleaning_status_usage_counterexample :
    determine_cleaning_status (some emptyBoundariesHealth) 1 = "ready" ∧
    spec_cleaning_status false 0 0 0 = "needs_review" ∧
    emptyBoundariesHealth.is_computed = false ∧
    emptyBoundariesHealth.alignment_rate = 0 ∧
    emptyBoundariesHealth.completeness = 0 ∧
    emptyBoundariesHealth.validation_errors = 0 ∧
    determine_cleaning_status (some emptyBoundariesHealth) 0 = "needs_review" := by
  refine ⟨?_, ?_, rfl, rfl, rfl, rfl, ?_⟩
  · simp [determine_cleaning_status, emptyBoundariesHealth]
  · simp [spec_cleaning_status]
    norm_num
  · simp [determine_cleaning_status, emptyBoundariesHealth]
    norm_num

/-- C1 amended: the cleaning status equals the spec's ordered rule
extended with one earlier clause — a non-computed record with zero
alignment, zero completeness and a positive instance-usage count is
ready — and absent metrics give needs_review; it is a deterministic,
pure function of the health metrics and the usage count. -/
theorem cleaning_status_follows_amended_rule (health : Option HealthMetrics)
    (usage_count : Nat) :
    determine_cleaning_status health usage_count
      = amended_cleaning_status health usage_count := by
  cases health with
  | none => rfl
  | some h =>
    by_cases hc : h.is_computed
    · simp [determine_cleaning_status, amended_cleaning_status,
        spec_cleaning_status, hc]
    · simp only [determine_cleaning_status, amended_cleaning_status,
        spec_cleaning_status, hc, Bool.not_false, if_false]
      by_cases hz : h.alignment_rate = 0 ∧ h.completeness = 0 ∧ 0 < usage_count
      · simp [hz]
      · simp [hz]

/-! ### Lemmas on first-occurrence deduplication -/

theorem dropDupAux_subset (l : List GeoRecord) :
    ∀ (seen : List String) (r : GeoRecord), r ∈ dropDupAux seen l → r ∈ l := by
  induction l with
  | nil => intro seen r hr; simp [dropDupAux] at hr
  | cons a rest ih =>
    intro seen r hr
    by_cases ha : a.admin_pcode ∈ seen
    · simp only [dropDupAux, if_pos ha] at hr
      exact List.mem_cons_of_mem a (ih seen r hr)
    · simp only [dropDupAux, if_neg ha, List.mem_cons] at hr
      rcases hr with hr | hr
      · simp [hr]
      · exact List.mem_cons_of_mem a (ih _ r hr)

theorem dropDupAux_key_not_seen (l : List GeoRecord) :
    ∀ (seen : List String) (r : GeoRecord),
      r ∈ dropDupAux seen l → r.admin_pcode ∉ seen := by
  induction l with
  | nil => intro seen r hr; simp [dropDupAux] at hr
  | cons a rest ih =>
    intro seen r hr
    by_cases ha : a.admin_pcode ∈ seen
    · simp only [dropDupAux, if_pos ha] at hr
      exact ih seen r hr
    · simp only [dropDupAux, if_neg ha, List.mem_cons] at hr
      rcases hr with hr | hr
      · rw [hr]; exact ha
      · have h := ih _ r hr
        intro hs
        exact h (List.mem_cons_of_mem _ hs)

theorem dropDupAux_keys_nodup (l : List GeoRecord) :
    ∀ seen : List String,
      ((dropDupAux seen l).map (fun r => r.admin_pcode)).Nodup := by
  induction l with
  | nil => intro seen; simp [dropDupAux]
  | cons a rest ih =>
    intro seen
    by_cases ha : a.admin_pcode ∈ seen
    · simp only [dropDupAux, if_pos ha]
      exact ih seen
    · simp only [dropDupAux, if_neg ha, List.map_cons, List.nodup_cons]
      refine ⟨?_, ih _⟩
      intro hk
      rcases List.mem_map.mp hk with ⟨r, hr, hkey⟩
      have h := dropDupAux_key_not_seen rest _ r hr
      exact h (by rw [hkey]; exact List.mem_cons_self _ _)

theorem dropDupAux_eq_self (l : List GeoRecord) :
    ∀ seen : List String,
      (l.map (fun r => r.admin_pcode)).Nodup →
      (∀ r ∈ l, r.admin_pcode ∉ seen) →
      dropDupAux seen l = l := by
  induction l with
  | nil => intro seen _ _; rfl
  | cons a rest ih =>
    intro seen hnd hseen
    have ha : a.admin_pcode ∉ seen := hseen a (List.mem_cons_self _ _)
    simp only [dropDupAux, if_neg ha]
    congr 1
    apply ih
    · exact (List.nodup_cons.mp (by simpa using hnd)).2
    · intro r hr hmem
      rcases List.mem_cons.mp hmem with hk | hk
      · have hna : a.admin_pcode ∉ rest.map (fun r => r.admin_pcode) :=
          (List.nodup_cons.mp (by simpa using hnd)).1
        exact hna (by rw [← hk]; exact List.mem_map_of_mem _ hr)
      · exact hseen r (List.mem_cons_of_mem a hr) hk

theorem dropDuplicatesByPcode_mem (l : List GeoRecord) (r : GeoRecord)
    (hr : r ∈ dropDuplicatesByPcode l) : r ∈ l :=
  dropDupAux_subset l [] r hr

theorem dropDuplicatesByPcode_keys_nodup (l : List GeoRecord) :
    ((dropDuplicatesByPcode l).map (fun r => r.admin_pcode)).Nodup :=
  dropDupAux_keys_nodup l []

theorem dropDuplicatesByPcode_eq_self (l : List GeoRecord)
    (hnd : (l.map (fun r => r.admin_pcode)).Nodup) :
    dropDuplicatesByPcode l = l :=
  dropDupAux_eq_self l [] hnd (fun r _ h => by simp at h)

theorem dropDuplicatesByPcode_idem (l : List GeoRecord) :
    dropDuplicatesByPcode (dropDuplicatesByPcode l) = dropDuplicatesByPcode l :=
  dropDuplicatesByPcode_eq_self _ (dropDuplicatesByPcode_keys_nodup l)

/-- C7: both cleaning pipelines — the single-file one
(`process_single_file_level`) and the admin-level-column one
(`process_level_from_admin_level_column`) — are idempotent: applied to
their own output they return it unchanged, so two runs on identical raw
data produce identical output sets. -/
theorem normalizer_idempotent (l : List GeoRecord) :
    normalize_single_level (normalize_single_level l) = normalize_single_level l ∧
    normalize_admin_level (normalize_admin_level l) = normalize_admin_level l := by
  constructor
  · have hmem : ∀ r ∈ normalize_single_level l,
        pcodeKept r = true ∧ isPolygonal r = true ∧ geomValid r = true := by
      intro r hr
      have h3 := dropDuplicatesByPcode_mem _ r hr
      have hv := (List.mem_filter.mp h3).2
      have h2 := (List.mem_filter.mp h3).1
      have hpol := (List.mem_filter.mp h2).2
      have h1 := (List.mem_filter.mp h2).1
      exact ⟨(List.mem_filter.mp h1).2, hpol, hv⟩
    have e1 : (normalize_single_level l).filter pcodeKept = normalize_single_level l :=
      List.filter_eq_self.mpr (fun a ha => (hmem a ha).1)
    have e2 : (normalize_single_level l).filter isPolygonal = normalize_single_level l :=
      List.filter_eq_self.mpr (fun a ha => (hmem a ha).2.1)
    have e3 : (normalize_single_level l).filter geomValid = normalize_single_level l :=
      List.filter_eq_self.mpr (fun a ha => (hmem a ha).2.2)
    calc normalize_single_level (normalize_single_level l)
        = dropDuplicatesByPcode (normalize_single_level l) := by
          rw [normalize_single_level, e1, e2, e3]
      _ = normalize_single_level l := by
          rw [normalize_single_level]
          exact dropDuplicatesByPcode_idem _
  · have hmem : ∀ r ∈ normalize_admin_level l,
        pcodeKept r = true ∧ isPolygonal r = true ∧ geomValid r = true := by
      intro r hr
      have hv := (List.mem_filter.mp hr).2
      have hdd := (List.mem_filter.mp hr).1
      have h2 := dropDuplicatesByPcode_mem _ r hdd
      have hpol := (List.mem_filter.mp h2).2
      have h1 := (List.mem_filter.mp h2).1
      exact ⟨(List.mem_filter.mp h1).2, hpol, hv⟩
    have e1 : (normalize_admin_level l).filter pcodeKept = normalize_admin_level l :=
      List.filter_eq_self.mpr (fun a ha => (hmem a ha).1)
    have e2 : (normalize_admin_level l).filter isPolygonal = normalize_admin_level l :=
      List.filter_eq_self.mpr (fun a ha => (hmem a ha).2.1)
    have e3 : (normalize_admin_level l).filter geomValid = normalize_admin_level l :=
      List.filter_eq_self.mpr (fun a ha => (hmem a ha).2.2)
    have hnodup : ((normalize_admin_level l).map (fun r => r.admin_pcode)).Nodup := by
      rw [normalize_admin_level]
      exact List.Nodup.sublist
        (List.Sublist.map _ (List.filter_sublist _))
        (dropDuplicatesByPcode_keys_nodup _)
    calc normalize_admin_level (normalize_admin_level l)
        = (dropDuplicatesByPcode (normalize_admin_level l)).filter geomValid := by
          rw [normalize_admin_level, e1, e2]
      _ = (normalize_admin_level l).filter geomValid := by
          rw [dropDuplicatesByPcode_eq_self _ hnodup]
      _ = normalize_admin_level l := e3

/-- A list splits into the rows accepted and the rows rejected by a
Boolean predicate. -/
theorem filter_length_partition {α : Type} (p : α → Bool) (l : List α) :
    (l.filter p).length + (l.filter (fun a => !p a)).length = l.length := by
  induction l with
  | nil => rfl
  | cons a rest ih =>
    cases hpa : p a <;> simp [List.filter_cons, hpa] <;> omega

/-- C8: the Hierarchy Validator exempts level 0 (zero orphans and zero
parent links regardless of contents), reports a level whose immediate
parent level is absent as 100% orphaned (orphans = total,
valid_parents = 0) with one issue noted, and always produces a
statistics entry for every level — it never aborts. -/
theorem validator_level_policy :
    (∀ (bl : List (Nat × List BoundaryRow)) (gdf : List BoundaryRow),
      validate_level bl 0 gdf =
        ({ total := gdf.length, with_parent := 0, orphans := 0,
           valid_parents := 0 }, [])) ∧
    (∀ (bl : List (Nat × List BoundaryRow)) (n : Nat) (gdf : List BoundaryRow),
      1 ≤ n → lookupLevel bl (n - 1) = none →
      validate_level bl n gdf =
        ({ total := gdf.length, with_parent := 0, orphans := gdf.length,
           valid_parents := 0 },
         ["ADM" ++ toString n ++ ": No parent level ADM" ++ toString (n - 1)
           ++ " found"])) ∧
    (∀ bl : List (Nat × List BoundaryRow),
      ((validate_parent_child_relationships bl).1).map Prod.fst
        = bl.map Prod.fst) := by
  refine ⟨?_, ?_, ?_⟩
  · intro bl gdf
    simp [validate_level]
  · intro bl n gdf hn hlook
    have hn0 : ¬ n = 0 := by omega
    simp [validate_level, hn0, hlook]
  · intro bl
    simp [validate_parent_child_relationships]

/-- Orphan-level scenario: one ADM2 layer with no ADM1 in the input. -/
def orphanLevelRows : List BoundaryRow := [⟨"X1", some "P1"⟩, ⟨"X2", none⟩]

/-- Per-level input containing only the orphan level 2. -/
def orphanLevelInput : List (Nat × List BoundaryRow) := [(2, orphanLevelRows)]

/-- C8 witness: with only level 2 present, the validator reports both
rows as orphans, zero valid parents, and the missing-parent issue. -/
theorem validator_level_policy_witness :
    validate_level orphanLevelInput 2 orphanLevelRows =
      ({ total := orphanLevelRows.length, with_parent := 0,
         orphans := orphanLevelRows.length, valid_parents := 0 },
       ["ADM" ++ toString 2 ++ ": No parent level ADM" ++ toString (2 - 1)
         ++ " found"]) :=
  validator_level_policy.2.1 orphanLevelInput 2 orphanLevelRows
    (by decide) (by decide)

/-- C10: at every level ≥ 1 the reported statistics satisfy
`total = with_parent + orphans`, `valid_parents ≤ with_parent`, and —
when the parent level is present — `with_parent = valid_parents +`
the number of reported invalid parent links. -/
theorem validator_stats_invariant (bl : List (Nat × List BoundaryRow))
    (n : Nat) (gdf : List BoundaryRow) (st : LevelStats)
    (hn : 1 ≤ n)
    (hst : (validate_level bl n gdf).1 = st) :
    st.total = st.with_parent + st.orphans ∧
    st.valid_parents ≤ st.with_parent ∧
    (∀ pg, lookupLevel bl (n - 1) = some pg →
      st.with_parent = st.valid_parents +
        (invalidParentLinks ((pg.map (fun r => r.admin_pcode)).toFinset)
          (gdf.filter (fun r => r.parent_pcode.isSome))).length) := by
  have hn0 : ¬ n = 0 := by omega
  cases hpf : lookupLevel bl (n - 1) with
  | none =>
    simp only [validate_level, if_neg hn0, hpf] at hst
    rw [← hst]
    refine ⟨by simp, by simp, ?_⟩
    intro pg hpg
    cases hpg
  | some pg0 =>
    simp only [validate_level, if_neg hn0, hpf] at hst
    rw [← hst]
    refine ⟨?_, ?_, ?_⟩
    · exact (filter_length_partition (fun r => r.parent_pcode.isSome) gdf).symm
    · exact List.length_filter_le _ _
    · intro pg hpg
      cases hpg
      show (gdf.filter (fun r => r.parent_pcode.isSome)).length = _
      rw [invalidParentLinks, List.length_map]
      have hcongr :
          ((gdf.filter (fun r => r.parent_pcode.isSome)).filter
            (fun r => decide (r.parent_pcode.getD ""
              ∉ (pg0.map (fun r => r.admin_pcode)).toFinset)))
          = ((gdf.filter (fun r => r.parent_pcode.isSome)).filter
            (fun a => !(decide (a.parent_pcode.getD ""
              ∈ (pg0.map (fun r => r.admin_pcode)).toFinset)))) := by
        apply List.filter_congr
        intro a _
        by_cases hmem : a.parent_pcode.getD ""
            ∈ (pg0.map (fun r => r.admin_pcode)).toFinset <;>
          simp [hmem]
      rw [hcongr]
      exact (filter_length_partition
        (fun a => decide (a.parent_pcode.getD ""
          ∈ (pg0.map (fun r => r.admin_pcode)).toFinset))
        (gdf.filter (fun r => r.parent_pcode.isSome))).symm

/-- Child level with two parented rows (one resolving, one not) and one
orphan row. -/
def childRows : List BoundaryRow := [⟨"C1", some "P1"⟩, ⟨"C2", none⟩, ⟨"C3", some "Q9"⟩]

/-- Parent level containing only P1. -/
def parentRows : List BoundaryRow := [⟨"P1", none⟩]

/-- Two-level input for the statistics-invariant witness. -/
def hierInput : List (Nat × List BoundaryRow) := [(0, parentRows), (1, childRows)]

/-- C10 witness: on the concrete two-level input the reported level-1
statistics are total 3 = 2 + 1, valid 1 ≤ 2, and 2 parented rows =
1 valid + 1 reported invalid link. -/
theorem validator_stats_invariant_witness :
    ((validate_level hierInput 1 childRows).1).total
        = ((validate_level hierInput 1 childRows).1).with_parent
          + ((validate_level hierInput 1 childRows).1).orphans ∧
    ((validate_level hierInput 1 childRows).1).valid_parents
        ≤ ((validate_level hierInput 1 childRows).1).with_parent ∧
    ((validate_level hierInput 1 childRows).1).with_parent
        = ((validate_level hierInput 1 childRows).1).valid_parents +
          (invalidParentLinks ((parentRows.map (fun r => r.admin_pcode)).toFinset)
            (childRows.filter (fun r => r.parent_pcode.isSome))).length := by
  have h := validator_stats_invariant hierInput 1 childRows
    ((validate_level hierInput 1 childRows).1) (by decide) rfl
  exact ⟨h.1, h.2.1, h.2.2 parentRows (by decide)⟩

/-! ### Name-column fallback (C9) -/

theorem filter_map_eraseName (p : GeoRecord → Bool)
    (hp : ∀ r, p (eraseName r) = p r) (l : List GeoRecord) :
    (l.map eraseName).filter p = (l.filter p).map eraseName := by
  rw [List.filter_map]
  congr 1
  apply List.filter_congr
  intro a _
  exact hp a

theorem dropDupAux_map_eraseName (l : List GeoRecord) :
    ∀ seen, dropDupAux seen (l.map eraseName)
      = (dropDupAux seen l).map eraseName := by
  induction l with
  | nil => intro seen; rfl
  | cons a rest ih =>
    intro seen
    by_cases ha : a.admin_pcode ∈ seen
    · show dropDupAux seen (eraseName a :: rest.map eraseName) = _
      simp only [dropDupAux, eraseName, if_pos ha]
      exact ih seen
    · show dropDupAux seen (eraseName a :: rest.map eraseName) = _
      simp only [dropDupAux, eraseName, if_neg ha, List.map_cons]
      rw [ih]

theorem normalize_single_level_map_eraseName (l : List GeoRecord) :
    normalize_single_level (l.map eraseName)
      = (normalize_single_level l).map eraseName := by
  rw [normalize_single_level, normalize_single_level]
  rw [filter_map_eraseName pcodeKept (fun r => rfl)]
  rw [filter_map_eraseName isPolygonal (fun r => rfl)]
  rw [filter_map_eraseName geomValid (fun r => rfl)]
  rw [dropDuplicatesByPcode, dropDuplicatesByPcode, dropDupAux_map_eraseName]

/-- C9 amended: with a resolved code column, an unresolved name column
never skips the layer — `process_single_file_level` returns exactly the
output it would return with a resolved name column, with every record's
name set to None (there is no fallback to the pcode); the pcode fallback
exists only in the Madagascar importer, where the record's name becomes
the (stripped) admin code. -/
theorem name_fallback_amended :
    (∀ (hasParentCol : Bool) (rows : List SrcRow),
      process_single_file_level true false hasParentCol rows
        = (process_single_file_level true true hasParentCol rows).map
            (List.map eraseName)) ∧
    (∀ pcode_value name_value : String,
      (mdg_standardize false pcode_value name_value).2
        = (mdg_standardize false pcode_value name_value).1 ∧
      (mdg_standardize false pcode_value name_value).1 = pcode_value.trim) := by
  constructor
  · intro hp rows
    have hmap : rows.map (single_file_record false hp)
        = (rows.map (single_file_record true hp)).map eraseName := by
      rw [List.map_map]
      rfl
    have unfold1 : process_single_file_level true false hp rows
        = (if (normalize_single_level (rows.map (single_file_record false hp))).isEmpty
            then none
            else some (normalize_single_level (rows.map (single_file_record false hp)))) := rfl
    have unfold2 : process_single_file_level true true hp rows
        = (if (normalize_single_level (rows.map (single_file_record true hp))).isEmpty
            then none
            else some (normalize_single_level (rows.map (single_file_record true hp)))) := rfl
    rw [unfold1, unfold2, hmap, normalize_single_level_map_eraseName]
    cases hX : normalize_single_level (rows.map (single_file_record true hp)) with
    | nil => simp
    | cons a t => simp
  · intro pcode_value name_value
    exact ⟨rfl, rfl⟩

/-- A source row with a good pcode, a name value, and a valid polygon. -/
def mdgRow : SrcRow := ⟨"MG1", "Foo", "", some ⟨GeomType.polygon, true⟩⟩

/-- C9 counterexample: in `process_single_file_level`, with the name
column unresolved, the output record's name is None — not the pcode
"MG1" the claimed fallback would give. -/
theorem name_fallback_counterexample :
    process_single_file_level true false false [mdgRow]
      = some [{ admin_pcode := "MG1", name := none, parent_pcode := none,
                geometry := some ⟨GeomType.polygon, true⟩ }] ∧
    (none : Option String) ≠ some "MG1" :=
  ⟨by decide, by decide⟩

end SLSC
